import Mathlib

/-!
Verification of the PanDerm iOS auxiliary scripts against their
natural-language specification.  Each Python script is shallowly embedded:
the file system, the network and the interactive input are oracles passed
as arguments, side effects are returned as explicit action traces, and
machine floats are modelled by exact arithmetic over the reals and the
rationals.
-/

namespace DownloadWeights

/-- An HTTP response as `download_weights.py` observes it: its cookies
(`response.cookies.items()`) and the body chunks yielded by
`response.iter_content(CHUNK_SIZE)`, each chunk a byte list. -/
structure HttpResponse where
  cookies : List (String × String)
  chunks : List (List Nat)

/-- The query parameters of one GET against the fixed URL
`https://docs.google.com/uc?export=download`: the file id, and the optional
`confirm` token. -/
structure ReqParams where
  id : String
  confirm : Option String
deriving DecidableEq

/-- `get_confirm_token`: the value of the first cookie whose key starts with
`download_warning`, else `None`. -/
def get_confirm_token (response : HttpResponse) : Option String :=
  (response.cookies.find? (fun kv => kv.1.startsWith "download_warning")).map (fun kv => kv.2)

/-- `save_response_content`: the bytes written to the destination file, the
concatenation of the non-empty chunks (`if chunk:` drops falsy, i.e. empty,
chunks). -/
def save_response_content (response : HttpResponse) : List Nat :=
  (response.chunks.filter (fun c => !c.isEmpty)).flatten

/-- `download_file_from_google_drive`, with the network as an oracle mapping
request parameters to the response.  Returns the list of requests made, in
order, and the bytes written to the destination. -/
def download_file_from_google_drive (net : ReqParams → HttpResponse) (file_id : String) :
    List ReqParams × List Nat :=
  let p1 : ReqParams := { id := file_id, confirm := none }
  let response := net p1
  match get_confirm_token response with
  | some token =>
      let p2 : ReqParams := { id := file_id, confirm := some token }
      ([p1, p2], save_response_content (net p2))
  | none => ([p1], save_response_content response)

/-- One observable step of `download_weights.main` after the model table is
printed: creating the weights directory, printing the invalid-choice
message, or calling `download_file_from_google_drive`. -/
inductive Action where
  | mkdirWeights
  | printInvalid
  | download (file_id : String) (destination : String)
deriving DecidableEq

/-- Python's `str.strip()` with no argument: leading and trailing whitespace
removed. -/
def pyStrip (s : String) : String :=
  String.mk (((s.toList.dropWhile Char.isWhitespace).reverse.dropWhile
    Char.isWhitespace).reverse)

/-- The weights directory created by `main`. -/
def weights_dir : String := "../model/pretrain_weight"

/-- One entry of the `models` table of `download_weights.main`. -/
structure ModelInfo where
  name : String
  file_id : String
  filename : String
  size : String
deriving DecidableEq

/-- The `models` dictionary of `download_weights.main`, keys `"1"` and `"2"`. -/
def models : List (String × ModelInfo) :=
  [("1", { name := "PanDerm_Base", file_id := "17J4MjsZu3gdBP6xAQi_NMDVvH65a00HB",
           filename := "panderm_bb_data6_checkpoint-499.pth", size := "~400MB" }),
   ("2", { name := "PanDerm_Large", file_id := "1SwEzaOlFV_gBKf2UzeowMC8z9UH7AQbE",
           filename := "panderm_ll_data6_checkpoint-499.pth", size := "~1.2GB" })]

/-- `download_weights.main`: `rawChoice` is the interactive input,
`dlOk` tells whether `download_file_from_google_drive` raises.  Returns the
boolean result and the trace of observable actions. -/
def main (rawChoice : String) (dlOk : Bool) : Bool × List Action :=
  let choice := pyStrip rawChoice
  match (models.find? (fun kv => kv.1 == choice)).map (fun kv => kv.2) with
  | none => (false, [Action.mkdirWeights, Action.printInvalid])
  | some m =>
      let destination := weights_dir ++ "/" ++ m.filename
      if dlOk then (true, [Action.mkdirWeights, Action.download m.file_id destination])
      else (false, [Action.mkdirWeights, Action.download m.file_id destination])

/-- The `__main__` block of `download_weights.py`:
`success = main(); if not success: sys.exit(1)`, else falling off the end
exits 0. -/
def scriptExit (rawChoice : String) (dlOk : Bool) : Nat :=
  if (main rawChoice dlOk).1 then 0 else 1

end DownloadWeights

namespace ConvertScript

/-- Which of the five packages probed by `setup_environment` in
`convert_panderm_to_coreml.py` are importable. -/
structure PyEnv where
  timm : Bool
  torch : Bool
  torchvision : Bool
  coremltools : Bool
  numpy : Bool
deriving DecidableEq

/-- `setup_environment` of `convert_panderm_to_coreml.py`: each import is
tried in turn and a missing package returns `False` at once. -/
def setup_environment (env : PyEnv) : Bool :=
  if !env.timm then false
  else if !env.torch then false
  else if !env.torchvision then false
  else if !env.coremltools then false
  else if !env.numpy then false
  else true

/-- The steps of `convert_panderm_to_coreml.main`, in source order. -/
inductive Step where
  | setup
  | checkCheckpoint
  | loadModel
  | convert
deriving DecidableEq

/-- How `convert_panderm_to_coreml.main` ends. -/
inductive Outcome where
  | setupFailed
  | checkpointMissing
  | loadFailed
  | convertFailed
  | converted
deriving DecidableEq

/-- `convert_panderm_to_coreml.main`.  `ckptExists` is
`os.path.exists(checkpoint_path)`, `loadOk` whether `load_panderm_model`
returns a model (it catches its own exceptions and returns `None` on
failure), `convertOk` whether `convert_to_coreml` returns `True`.  Returns
the steps that executed, in order, and the outcome.  Note that `main`
returns `None` on every path. -/
def main (env : PyEnv) (ckptExists loadOk convertOk : Bool) : List Step × Outcome :=
  if !setup_environment env then ([Step.setup], Outcome.setupFailed)
  else if !ckptExists then ([Step.setup, Step.checkCheckpoint], Outcome.checkpointMissing)
  else if !loadOk then
    ([Step.setup, Step.checkCheckpoint, Step.loadModel], Outcome.loadFailed)
  else if convertOk then
    ([Step.setup, Step.checkCheckpoint, Step.loadModel, Step.convert], Outcome.converted)
  else
    ([Step.setup, Step.checkCheckpoint, Step.loadModel, Step.convert], Outcome.convertFailed)

/-- The `__main__` block of `convert_panderm_to_coreml.py` is the bare call
`main()`: the return value (always `None`) is discarded and the process
exits 0 no matter how `main` ended. -/
def scriptExit (env : PyEnv) (ckptExists loadOk convertOk : Bool) : Nat :=
  let _ := main env ckptExists loadOk convertOk
  0

end ConvertScript

namespace SetupEnvScript

/-- The `packages` list of `setup_environment.py`. -/
def packages : List String :=
  ["torch>=1.12.0", "torchvision>=0.13.0", "timm>=0.6.0", "coremltools>=6.0",
   "numpy>=1.21.0", "Pillow>=8.0.0", "pandas>=1.3.0", "scikit-learn>=1.0.0",
   "opencv-python>=4.5.0", "albumentations>=1.0.0", "tqdm>=4.60.0",
   "wandb>=0.12.0", "tensorboard>=2.8.0"]

/-- `setup_environment.main`: `installOk` is whether `install_package`
succeeds for a given package, `verifyOk` whether the verification imports
all succeed.  Returns `False` when some install failed, else the
verification result. -/
def main (installOk : String → Bool) (verifyOk : Bool) : Bool :=
  let failed_packages := packages.filter (fun p => !installOk p)
  if !failed_packages.isEmpty then false else verifyOk

/-- The `__main__` block of `setup_environment.py`:
`if not success: sys.exit(1)`, else exit 0. -/
def scriptExit (installOk : String → Bool) (verifyOk : Bool) : Nat :=
  if main installOk verifyOk then 0 else 1

end SetupEnvScript

namespace CreateTestModel

/-- A file-system action performed by `create_test_model.py`. -/
inductive FsAction where
  | rmtree (path : String)
  | save (path : String)
deriving DecidableEq

/-- `create_model_package`: `fs` is `Path.exists`.  Returns the package path
`output_dir / (model_name ++ ".mlpackage")` and the file-system actions in
order: the existing package is removed with `shutil.rmtree` before
`model.save` when present, and nothing is removed otherwise. -/
def create_model_package (fs : String → Bool) (model_name output_dir : String) :
    String × List FsAction :=
  let package_path := output_dir ++ "/" ++ model_name ++ ".mlpackage"
  if fs package_path then
    (package_path, [FsAction.rmtree package_path, FsAction.save package_path])
  else
    (package_path, [FsAction.save package_path])

/-- The fallible steps inside the `try` block of `create_test_model.main`
and the two `validate_model` results.  A step field is `true` when the step
completes without raising.  `validate_model` never raises: it catches its
own exceptions and returns a boolean. -/
structure MainEnv where
  basicCreateOk : Bool
  basicPackageOk : Bool
  basicValidate : Bool
  enhancedCreateOk : Bool
  enhancedPackageOk : Bool
  enhancedValidate : Bool
  infoWriteOk : Bool
deriving DecidableEq

/-- `create_test_model.main`: `True` when every raising step of the `try`
block completes, `False` when one raises (the `except` branch).  The two
`validate_model` results only choose which message is printed. -/
def main (e : MainEnv) : Bool :=
  if !e.basicCreateOk then false
  else if !e.basicPackageOk then false
  else if !e.enhancedCreateOk then false
  else if !e.enhancedPackageOk then false
  else if !e.infoWriteOk then false
  else true

/-- The `__main__` block of `create_test_model.py`:
`sys.exit(0 if success else 1)`. -/
def scriptExit (e : MainEnv) : Nat :=
  if main e then 0 else 1

end CreateTestModel

namespace TestLocalInference

/-- What one test function of `test_local_inference.py` does when called:
returns a boolean, or raises (the loop catches the exception and records
`False`). -/
inductive TestOutcome where
  | ok (b : Bool)
  | raised
deriving DecidableEq

/-- The boolean recorded in `results` for one outcome. -/
def recorded : TestOutcome → Bool
  | TestOutcome.ok b => b
  | TestOutcome.raised => false

/-- The `tests` list of `test_local_inference.main`, by name, in order. -/
def testNames : List String :=
  ["Core ML Model Creation", "Model Files Exist", "Key Implementation Files",
   "Swift Compilation", "Implementation Structure"]

/-- The loop of `test_local_inference.main` over `tests`: `run` is the
oracle giving each test function's outcome.  Returns the names of the test
functions that were invoked, in order, and the recorded `results` list. -/
def mainTrace (run : String → TestOutcome) : List String × List (String × Bool) :=
  testNames.foldl
    (fun acc name => (acc.1 ++ [name], acc.2 ++ [(name, recorded (run name))]))
    ([], [])

/-- The result of `test_local_inference.main`: `passed == total` over the
recorded results. -/
def mainResult (run : String → TestOutcome) : Bool :=
  let results := (mainTrace run).2
  let passed := (results.filter (fun r => r.2)).length
  passed == results.length

/-- The `__main__` block of `test_local_inference.py`:
`sys.exit(0 if success else 1)`. -/
def scriptExit (run : String → TestOutcome) : Nat :=
  if mainResult run then 0 else 1

end TestLocalInference

namespace ValidateImpl

/-- Whether the first char list is a prefix of the second. -/
def listIsPrefix : List Char → List Char → Bool
  | [], _ => true
  | _ :: _, [] => false
  | a :: as, b :: bs => a == b && listIsPrefix as bs

/-- Whether the first char list occurs contiguously inside the second. -/
def listSubstr (needle : List Char) : List Char → Bool
  | [] => needle.isEmpty
  | b :: bs => listIsPrefix needle (b :: bs) || listSubstr needle bs

/-- Python's `needle in haystack` on strings: substring containment. -/
def pyIn (needle haystack : String) : Bool :=
  listSubstr needle.toList haystack.toList

/-- `check_file_exists`: `fs` is `os.path.exists`; the size lookup and the
printing do not affect the returned boolean. -/
def check_file_exists (fs : String → Bool) (file_path : String) : Bool :=
  fs file_path

/-- Counting loop shared by the check functions:
`for file_path, _ in files: if check_file_exists(file_path): passed += 1`. -/
def countPassed (fs : String → Bool) (files : List (String × String)) : Nat :=
  files.foldl (fun passed fd => if check_file_exists fs fd.1 then passed + 1 else passed) 0

/-- The `swift_files` list of `check_swift_files`. -/
def swift_files : List (String × String) :=
  [("PanDerm/PanDermApp.swift", "Main app entry point"),
   ("PanDerm/ContentView.swift", "Main navigation view"),
   ("PanDerm/Services/LocalInferenceService.swift", "Core ML inference service"),
   ("PanDerm/Views/ImageAnalysisView.swift", "Image analysis interface"),
   ("PanDerm/Views/PatientListView.swift", "Patient management"),
   ("PanDerm/Views/PatientDetailView.swift", "Patient details"),
   ("PanDerm/Views/AnalysisHistoryView.swift", "Analysis history"),
   ("PanDerm/Views/InferenceSettingsView.swift", "Settings interface"),
   ("PanDerm/ViewModels/PatientViewModel.swift", "Patient data management"),
   ("PanDerm/ViewModels/SkinConditionViewModel.swift", "Analysis workflow"),
   ("PanDerm/Models/Patient.swift", "Patient data models"),
   ("PanDerm/Models/SkinCondition.swift", "Medical condition models"),
   ("PanDerm/Models/AnalysisModels.swift", "ML result models")]

/-- `check_swift_files`: `(passed, total)`. -/
def check_swift_files (fs : String → Bool) : Nat × Nat :=
  (countPassed fs swift_files, swift_files.length)

/-- The `model_files` list of `check_core_ml_models`. -/
def model_files : List (String × String) :=
  [("PanDerm/PanDerm.mlpackage", "Primary classification model"),
   ("PanDerm/PanDerm 2.mlpackage", "Enhanced multi-task model")]

/-- `check_core_ml_models`: `(passed, total)`. -/
def check_core_ml_models (fs : String → Bool) : Nat × Nat :=
  (countPassed fs model_files, model_files.length)

/-- The `directories` list of `check_project_structure`. -/
def directories : List (String × String) :=
  [("PanDerm", "Main app directory"),
   ("PanDerm/Views", "SwiftUI views"),
   ("PanDerm/ViewModels", "View models"),
   ("PanDerm/Models", "Data models"),
   ("PanDerm/Services", "Business logic services"),
   ("PanDerm/Assets.xcassets", "App assets")]

/-- `check_project_structure`: `(passed, total)`; it calls
`os.path.exists` directly. -/
def check_project_structure (fs : String → Bool) : Nat × Nat :=
  (directories.foldl (fun passed dd => if fs dd.1 then passed + 1 else passed) 0,
   directories.length)

/-- The `docs` list of `check_documentation`. -/
def docs : List (String × String) :=
  [("README.md", "Project overview"),
   ("PanDerm/README.md", "App documentation"),
   ("DATASET_SPECIFICATION.md", "Dataset requirements"),
   ("LOCAL_INFERENCE_IMPLEMENTATION_PLAN.md", "Implementation plan"),
   ("IMMEDIATE_IMPLEMENTATION_GUIDE.md", "Implementation guide")]

/-- `check_documentation`: `(passed, total)`. -/
def check_documentation (fs : String → Bool) : Nat × Nat :=
  (countPassed fs docs, docs.length)

/-- `analyze_code_quality`: `fs` is `os.path.exists` and `content` gives the
text `open(path).read()` of an existing path.  The `quality_indicators`
list grows by one entry per guard that holds; `(passed, total)` counts the
checkmarked entries against the list length. -/
def analyze_code_quality (fs : String → Bool) (content : String → String) : Nat × Nat :=
  let svc := "PanDerm/Services/LocalInferenceService.swift"
  let pvm := "PanDerm/ViewModels/PatientViewModel.swift"
  let iav := "PanDerm/Views/ImageAnalysisView.swift"
  let mvvm := fs pvm && fs "PanDerm/Views/PatientListView.swift" &&
    fs "PanDerm/Models/Patient.swift"
  let indicators : List Bool :=
    [mvvm]
    ++ (if fs svc then
          [pyIn "LocalInferenceError" (content svc) && pyIn "do \x7b" (content svc) &&
           pyIn "catch" (content svc)]
        else [])
    ++ (if fs pvm then
          [pyIn "UserDefaults" (content pvm) || pyIn "savePatients" (content pvm)]
        else [])
    ++ (if fs iav then
          [pyIn "@EnvironmentObject" (content iav) && pyIn "@StateObject" (content iav)]
        else [])
  ((indicators.filter (fun b => b)).length, indicators.length)

/-- The five `(passed, total)` pairs accumulated by `validate_implementation.main`,
in order. -/
def results (fs : String → Bool) (content : String → String) : List (Nat × Nat) :=
  [check_swift_files fs, check_core_ml_models fs, check_project_structure fs,
   check_documentation fs, analyze_code_quality fs content]

/-- `total_passed` and `total_checks` of `validate_implementation.main`. -/
def totals (fs : String → Bool) (content : String → String) : Nat × Nat :=
  ((results fs content).foldl (fun acc r => acc + r.1) 0,
   (results fs content).foldl (fun acc r => acc + r.2) 0)

/-- `overall_percentage`, under exact arithmetic. -/
def overall_percentage (fs : String → Bool) (content : String → String) : ℚ :=
  let t := totals fs content
  if 0 < t.2 then (t.1 : ℚ) / (t.2 : ℚ) * 100 else 0

/-- The value `validate_implementation.main` returns: `True` on the
`>= 80` branch, `False` on the `>= 50` branch and on the final branch. -/
def main (fs : String → Bool) (content : String → String) : Bool :=
  let pct := overall_percentage fs content
  if 80 ≤ pct then true
  else if 50 ≤ pct then false
  else false

/-- The `__main__` block of `validate_implementation.py`:
`sys.exit(0 if success else 1)`. -/
def scriptExit (fs : String → Bool) (content : String → String) : Nat :=
  if main fs content then 0 else 1

end ValidateImpl

namespace CreateTestModel

/-- The argument of a `predict` call: `inputs['input']` is a
`(b, 3, 224, 224)` float tensor.  `predict` reads only `shape[0] = b`. -/
structure NpBatch (b : Nat) where
  data : Fin b → Fin 3 → Fin 224 → Fin 224 → ℝ

/-- `np.max(row)` of a nonempty row, as used with `keepdims=True` per row. -/
noncomputable def rowMax {n : Nat} (hn : 0 < n) (v : Fin n → ℝ) : ℝ :=
  Finset.univ.sup' (Finset.univ_nonempty_iff.mpr ⟨⟨0, hn⟩⟩) v

/-- One row of the softmax computed by both `predict` bodies:
`exp(row - max(row)) / sum(exp(row - max(row)))`, in exact real
arithmetic. -/
noncomputable def softmaxRow {n : Nat} (hn : 0 < n) (v : Fin n → ℝ) (j : Fin n) : ℝ :=
  Real.exp (v j - rowMax hn v) / ∑ k, Real.exp (v k - rowMax hn v)

/-- The `class_weights` array of `MockPanDermModel.predict`. -/
noncomputable def mockClassWeights : Fin 9 → ℝ :=
  ![0.8, 1.2, 0.6, 1.5, 1.0, 0.7, 0.9, 0.5, 0.4]

/-- Row `i` of `np.random.randn(batch_size, 9) * class_weights` in
`MockPanDermModel.predict`: the global RNG is modelled as a stream `g`
consumed from position `pos` in row-major order. -/
noncomputable def mockWeightedRow (g : Nat → ℝ) (pos i : Nat) (j : Fin 9) : ℝ :=
  g (pos + (i * 9 + j.val)) * mockClassWeights j

/-- `MockPanDermModel.predict`: the returned `linear_48` probability matrix
and the RNG position after the call (`randn` consumed `b * 9` values). -/
noncomputable def MockPanDermModel.predict (g : Nat → ℝ) (pos : Nat) {b : Nat}
    (inputs : NpBatch b) : (Fin b → Fin 9 → ℝ) × Nat :=
  (fun i j => softmaxRow (by norm_num) (mockWeightedRow g pos i.val) j, pos + b * 9)

/-- The `class_weights` array of `EnhancedPanDermModel.predict`. -/
noncomputable def enhancedClassWeights : Fin 15 → ℝ :=
  ![0.8, 1.2, 0.6, 1.5, 1.0, 0.7, 0.9, 0.5, 0.4, 0.6, 0.8, 0.9, 1.1, 0.7, 0.5]

/-- Row `i` of `np.random.randn(batch_size, 15) * class_weights` in
`EnhancedPanDermModel.predict`. -/
noncomputable def enhancedWeightedRow (g : Nat → ℝ) (pos i : Nat) (j : Fin 15) : ℝ :=
  g (pos + (i * 15 + j.val)) * enhancedClassWeights j

/-- One `np.random.uniform(low, high)` sample from one stream value. -/
noncomputable def uniformDraw (low high u : ℝ) : ℝ :=
  low + (high - low) * u

/-- The output dictionary of `EnhancedPanDermModel.predict`. -/
structure EnhancedOutput (b : Nat) where
  classification : Fin b → Fin 15 → ℝ
  confidence : Fin b → ℝ
  risk_score : Fin b → ℝ

/-- `EnhancedPanDermModel.predict`: the classification softmax consumes
`b * 15` stream values, then `confidence` and `risk_score` consume `b`
uniform draws each. -/
noncomputable def EnhancedPanDermModel.predict (g : Nat → ℝ) (pos : Nat) {b : Nat}
    (inputs : NpBatch b) : EnhancedOutput b × Nat :=
  let posConf := pos + b * 15
  let posRisk := posConf + b
  ({ classification := fun i j =>
       softmaxRow (by norm_num) (enhancedWeightedRow g pos i.val) j,
     confidence := fun i => uniformDraw 0.6 0.95 (g (posConf + i.val)),
     risk_score := fun i => uniformDraw 0.1 0.8 (g (posRisk + i.val)) },
   posRisk + b)

/-- Two successive `MockPanDermModel.predict` calls on the same input: the
second call reads the global RNG from the position where the first left
it. -/
noncomputable def mockPredictTwice (g : Nat → ℝ) (pos : Nat) {b : Nat} (x : NpBatch b) :
    (Fin b → Fin 9 → ℝ) × (Fin b → Fin 9 → ℝ) :=
  let first := MockPanDermModel.predict g pos x
  let second := MockPanDermModel.predict g first.2 x
  (first.1, second.1)

/-- A global RNG stream refuting determinism of sequential `predict` calls:
the first nine draws (the first call's logits, batch size 1) are all `0`,
the tenth draw (the second call's first logit) is `1`. -/
noncomputable def cexStream : Nat → ℝ :=
  fun k => if k = 9 then 1 else 0

/-- A concrete all-zero `(1, 3, 224, 224)` input batch. -/
noncomputable def cexInput : NpBatch 1 :=
  { data := fun _ _ _ _ => 0 }

end CreateTestModel

namespace TestLocalInference

/-- A run of `test_local_inference.main` in which the first test function
returns `False` and every other test function returns `True`. -/
def cexRun : String → TestOutcome :=
  fun name => if name == "Core ML Model Creation" then TestOutcome.ok false
              else TestOutcome.ok true

end TestLocalInference

namespace ValidateImpl

/-- A file system in which everything exists except the top-level
`README.md` (one of the five documentation checks). -/
def cexFs : String → Bool :=
  fun p => p != "README.md"

/-- File contents satisfying every substring probe of
`analyze_code_quality`. -/
def cexContent : String → String :=
  fun _ =>
    "LocalInferenceError do \x7b catch UserDefaults savePatients @EnvironmentObject @StateObject"

end ValidateImpl

namespace CreateTestModel

lemma univ_nonempty_of_pos {n : Nat} (hn : 0 < n) :
    (Finset.univ : Finset (Fin n)).Nonempty :=
  ⟨⟨0, hn⟩, Finset.mem_univ _⟩

lemma expSum_pos {n : Nat} (hn : 0 < n) (v : Fin n → ℝ) :
    0 < ∑ k, Real.exp (v k - rowMax hn v) :=
  Finset.sum_pos (fun k _ => Real.exp_pos _) (univ_nonempty_of_pos hn)

lemma softmaxRow_pos {n : Nat} (hn : 0 < n) (v : Fin n → ℝ) (j : Fin n) :
    0 < softmaxRow hn v j :=
  div_pos (Real.exp_pos _) (expSum_pos hn v)

lemma softmaxRow_sum {n : Nat} (hn : 0 < n) (v : Fin n → ℝ) :
    ∑ j, softmaxRow hn v j = 1 := by
  unfold softmaxRow
  rw [← Finset.sum_div]
  exact div_self (ne_of_gt (expSum_pos hn v))

lemma softmaxRow_eq_iff {n : Nat} (hn : 0 < n) (v : Fin n → ℝ) (i j : Fin n) :
    softmaxRow hn v i = softmaxRow hn v j ↔ v i = v j := by
  unfold softmaxRow
  constructor
  · intro h
    have h2 := (div_left_inj' (ne_of_gt (expSum_pos hn v))).mp h
    exact sub_left_inj.mp (Real.exp_eq_exp.mp h2)
  · intro h
    rw [h]

end CreateTestModel

namespace ValidateImpl

lemma foldl_count_eq {α : Type} (p : α → Bool) :
    ∀ (l : List α) (n : Nat),
      l.foldl (fun acc a => if p a then acc + 1 else acc) n = n + (l.filter p).length := by
  intro l
  induction l with
  | nil => intro n; simp
  | cons a as ih =>
      intro n
      by_cases h : p a = true
      · simp [List.foldl, h, ih, Nat.add_assoc, Nat.add_comm 1]
      · simp [List.foldl, h, ih]

lemma countPassed_eq (fs : String → Bool) (files : List (String × String)) :
    countPassed fs files = (files.filter (fun fd => fs fd.1)).length := by
  unfold countPassed check_file_exists
  rw [foldl_count_eq]
  simp

end ValidateImpl

namespace DownloadWeights

lemma get_confirm_token_isSome_iff (r : HttpResponse) :
    (get_confirm_token r).isSome = true ↔
      ∃ kv ∈ r.cookies, kv.1.startsWith "download_warning" = true := by
  unfold get_confirm_token
  simp [List.find?_isSome]

end DownloadWeights

/-- C4: `download_file_from_google_drive` first GETs with parameters
`id = file_id` and no `confirm`; exactly when some cookie of that response
has a key starting with `download_warning` it GETs once more with the first
such cookie's value as `confirm`; the written file content is the chunk
concatenation of the last response's body, and at most two requests are
ever made. -/
theorem download_request_flow :
    ∀ (net : DownloadWeights.ReqParams → DownloadWeights.HttpResponse) (file_id : String),
      (DownloadWeights.download_file_from_google_drive net file_id).1.length ≤ 2 ∧
      (DownloadWeights.download_file_from_google_drive net file_id).1.head? =
        some { id := file_id, confirm := none } ∧
      ((∃ kv ∈ (net { id := file_id, confirm := none }).cookies,
          kv.1.startsWith "download_warning" = true) ↔
        (DownloadWeights.download_file_from_google_drive net file_id).1.length = 2) ∧
      (∀ token,
        DownloadWeights.get_confirm_token (net { id := file_id, confirm := none }) =
          some token →
        (DownloadWeights.download_file_from_google_drive net file_id).1 =
          [{ id := file_id, confirm := none }, { id := file_id, confirm := some token }] ∧
        (DownloadWeights.download_file_from_google_drive net file_id).2 =
          DownloadWeights.save_response_content (net { id := file_id, confirm := some token })) ∧
      (DownloadWeights.get_confirm_token (net { id := file_id, confirm := none }) = none →
        (DownloadWeights.download_file_from_google_drive net file_id).1 =
          [{ id := file_id, confirm := none }] ∧
        (DownloadWeights.download_file_from_google_drive net file_id).2 =
          DownloadWeights.save_response_content (net { id := file_id, confirm := none })) := by
  intro net file_id
  have hiff :=
    DownloadWeights.get_confirm_token_isSome_iff (net { id := file_id, confirm := none })
  cases h : DownloadWeights.get_confirm_token (net { id := file_id, confirm := none }) with
  | none =>
      rw [h] at hiff
      simp only [Option.isSome_none, Bool.false_eq_true, false_iff] at hiff
      refine ⟨?_, ?_, ?_, ?_, ?_⟩ <;>
        simp [DownloadWeights.download_file_from_google_drive, h, hiff]
  | some token =>
      rw [h] at hiff
      simp only [Option.isSome_some, true_iff] at hiff
      refine ⟨?_, ?_, ?_, ?_, ?_⟩ <;>
        simp [DownloadWeights.download_file_from_google_drive, h, hiff]

/-- C5: when the stripped interactive input is neither `"1"` nor `"2"`,
`download_weights.main` prints the invalid-choice message and returns
`False` with no download action (so no network request and no file write);
stripped input `"1"` or `"2"` proceeds to download the corresponding model
file into the weights directory. -/
theorem invalid_choice_no_download :
    ∀ (raw : String) (dlOk : Bool),
      (DownloadWeights.pyStrip raw ≠ "1" → DownloadWeights.pyStrip raw ≠ "2" →
        DownloadWeights.main raw dlOk =
          (false, [DownloadWeights.Action.mkdirWeights,
                   DownloadWeights.Action.printInvalid]) ∧
        ∀ fid dest,
          DownloadWeights.Action.download fid dest ∉ (DownloadWeights.main raw dlOk).2) ∧
      (DownloadWeights.pyStrip raw = "1" →
        DownloadWeights.Action.download "17J4MjsZu3gdBP6xAQi_NMDVvH65a00HB"
            "../model/pretrain_weight/panderm_bb_data6_checkpoint-499.pth" ∈
          (DownloadWeights.main raw dlOk).2) ∧
      (DownloadWeights.pyStrip raw = "2" →
        DownloadWeights.Action.download "1SwEzaOlFV_gBKf2UzeowMC8z9UH7AQbE"
            "../model/pretrain_weight/panderm_ll_data6_checkpoint-499.pth" ∈
          (DownloadWeights.main raw dlOk).2) := by
  intro raw dlOk
  by_cases h1 : DownloadWeights.pyStrip raw = "1"
  · refine ⟨fun hc => absurd h1 hc, fun _ => ?_, fun h2 => absurd (h1.symm.trans h2) (by decide)⟩
    cases dlOk <;>
      simp [DownloadWeights.main, DownloadWeights.models, DownloadWeights.weights_dir, h1]
  · by_cases h2 : DownloadWeights.pyStrip raw = "2"
    · refine ⟨fun hc => absurd h2, fun hc => absurd hc h1, fun _ => ?_⟩
      cases dlOk <;>
        simp [DownloadWeights.main, DownloadWeights.models, DownloadWeights.weights_dir, h2]
    · refine ⟨fun _ _ => ?_, fun hc => absurd hc h1, fun hc => absurd hc h2⟩
      have hmain : DownloadWeights.main raw dlOk =
          (false, [DownloadWeights.Action.mkdirWeights,
                   DownloadWeights.Action.printInvalid]) := by
        simp [DownloadWeights.main, DownloadWeights.models, h1, h2, Ne.symm h1, Ne.symm h2]
      refine ⟨hmain, fun fid dest => ?_⟩
      rw [hmain]
      simp

/-- C8: under exact real arithmetic every row of the classification output
of `MockPanDermModel.predict` and of `EnhancedPanDermModel.predict` is a
probability distribution: strictly positive entries summing to 1. -/
theorem predict_rows_are_distributions :
    ∀ (g : Nat → ℝ) (pos b : Nat) (x : CreateTestModel.NpBatch b) (i : Fin b),
      (∀ j, 0 < (CreateTestModel.MockPanDermModel.predict g pos x).1 i j) ∧
      (∑ j, (CreateTestModel.MockPanDermModel.predict g pos x).1 i j) = 1 ∧
      (∀ j, 0 <
        (CreateTestModel.EnhancedPanDermModel.predict g pos x).1.classification i j) ∧
      (∑ j,
        (CreateTestModel.EnhancedPanDermModel.predict g pos x).1.classification i j) = 1 := by
  intro g pos b x i
  refine ⟨fun j => ?_, ?_, fun j => ?_, ?_⟩
  · exact CreateTestModel.softmaxRow_pos _ _ _
  · exact CreateTestModel.softmaxRow_sum _ _
  · exact CreateTestModel.softmaxRow_pos _ _ _
  · exact CreateTestModel.softmaxRow_sum _ _

/-- C3 (counterexample): with the global RNG stream `cexStream` and the
concrete all-zero input batch, two successive `MockPanDermModel.predict`
calls on that same input return different classification outputs: the first
call's row is uniform while the second call's first two entries differ. -/
theorem mock_predict_not_deterministic :
    (CreateTestModel.mockPredictTwice CreateTestModel.cexStream 0 CreateTestModel.cexInput).1 ≠
    (CreateTestModel.mockPredictTwice CreateTestModel.cexStream 0 CreateTestModel.cexInput).2 := by
  intro h
  have h9 : (0 : Nat) < 9 := by norm_num
  have e1 : CreateTestModel.mockWeightedRow CreateTestModel.cexStream 0 0 0 =
      CreateTestModel.mockWeightedRow CreateTestModel.cexStream 0 0 1 := by
    simp [CreateTestModel.mockWeightedRow, CreateTestModel.cexStream]
  have e2 : CreateTestModel.mockWeightedRow CreateTestModel.cexStream (0 + 1 * 9) 0 0 ≠
      CreateTestModel.mockWeightedRow CreateTestModel.cexStream (0 + 1 * 9) 0 1 := by
    simp [CreateTestModel.mockWeightedRow, CreateTestModel.cexStream,
      CreateTestModel.mockClassWeights]
    norm_num
  have h00 : CreateTestModel.softmaxRow h9
        (CreateTestModel.mockWeightedRow CreateTestModel.cexStream 0 0) 0 =
      CreateTestModel.softmaxRow h9
        (CreateTestModel.mockWeightedRow CreateTestModel.cexStream (0 + 1 * 9) 0) 0 :=
    congrFun (congrFun h 0) 0
  have h01 : CreateTestModel.softmaxRow h9
        (CreateTestModel.mockWeightedRow CreateTestModel.cexStream 0 0) 1 =
      CreateTestModel.softmaxRow h9
        (CreateTestModel.mockWeightedRow CreateTestModel.cexStream (0 + 1 * 9) 0) 1 :=
    congrFun (congrFun h 0) 1
  have s1 : CreateTestModel.softmaxRow h9
        (CreateTestModel.mockWeightedRow CreateTestModel.cexStream 0 0) 0 =
      CreateTestModel.softmaxRow h9
        (CreateTestModel.mockWeightedRow CreateTestModel.cexStream 0 0) 1 :=
    (CreateTestModel.softmaxRow_eq_iff h9 _ 0 1).mpr e1
  exact e2 ((CreateTestModel.softmaxRow_eq_iff h9 _ 0 1).mp (h00.symm.trans (s1.trans h01)))

/-- C3 (amended): each stand-in model's `predict` is a function of the
global RNG state and the input's batch size alone — with the same RNG state
it returns equal outputs even on different input tensors — but successive
calls advance the RNG state, so two calls on the same input need not
agree. -/
theorem predict_ignores_input_values :
    ∀ (g : Nat → ℝ) (pos b : Nat) (x y : CreateTestModel.NpBatch b),
      CreateTestModel.MockPanDermModel.predict g pos x =
        CreateTestModel.MockPanDermModel.predict g pos y ∧
      CreateTestModel.EnhancedPanDermModel.predict g pos x =
        CreateTestModel.EnhancedPanDermModel.predict g pos y :=
  fun _ _ _ _ _ => ⟨rfl, rfl⟩

/-- C10: `validate_implementation.main` returns `True` exactly when the
overall percentage of passed checks is at least 80, and with one listed
documentation file missing (24 of 25 non-quality checks passing plus all
quality indicators) it still returns `True`, so the validation can exit 0
with files missing. -/
theorem overall_eighty_percent_gate :
    (∀ (fs : String → Bool) (content : String → String),
      ValidateImpl.main fs content = true ↔
        80 ≤ ValidateImpl.overall_percentage fs content) ∧
    (ValidateImpl.check_documentation ValidateImpl.cexFs).1 <
      (ValidateImpl.check_documentation ValidateImpl.cexFs).2 ∧
    ValidateImpl.main ValidateImpl.cexFs ValidateImpl.cexContent = true := by
  refine ⟨?_, ?_, ?_⟩
  · intro fs content
    by_cases hp : 80 ≤ ValidateImpl.overall_percentage fs content <;>
      simp [ValidateImpl.main, hp]
  · decide
  · have ht : ValidateImpl.totals ValidateImpl.cexFs ValidateImpl.cexContent = (29, 30) := by
      decide
    have hpct : ValidateImpl.overall_percentage ValidateImpl.cexFs ValidateImpl.cexContent =
        (29 : ℚ) / (30 : ℚ) * 100 := by
      unfold ValidateImpl.overall_percentage
      rw [ht]
      norm_num
    have h80 : (80 : ℚ) ≤ (29 : ℚ) / (30 : ℚ) * 100 := by norm_num
    simp [ValidateImpl.main, hpct, h80]

/-- C1 (counterexample): in `convert_panderm_to_coreml.py` a failed
environment setup is a failure reported by `main`, yet the process exit code
is `0`: the `__main__` block discards `main`'s return value (which is always
`None`, never a boolean), so the exit code is not nonzero on failure. -/
theorem convert_script_exits_zero_on_failure :
    (ConvertScript.main
        { timm := false, torch := true, torchvision := true,
          coremltools := true, numpy := true } true true true).2 =
      ConvertScript.Outcome.setupFailed ∧
    ConvertScript.scriptExit
        { timm := false, torch := true, torchvision := true,
          coremltools := true, numpy := true } true true true = 0 :=
  ⟨rfl, rfl⟩

/-- C1 (amended): `download_weights.py`, `create_test_model.py`,
`test_local_inference.py`, `validate_implementation.py` and
`setup_environment.py` convert their `main`'s boolean into a process exit
code that is zero exactly on success and nonzero exactly on failure, but
`convert_panderm_to_coreml.py` always exits `0`, even when a step fails. -/
theorem script_exit_codes :
    (∀ (raw : String) (dlOk : Bool),
      DownloadWeights.scriptExit raw dlOk = 0 ↔ (DownloadWeights.main raw dlOk).1 = true) ∧
    (∀ e : CreateTestModel.MainEnv,
      CreateTestModel.scriptExit e = 0 ↔ CreateTestModel.main e = true) ∧
    (∀ run : String → TestLocalInference.TestOutcome,
      TestLocalInference.scriptExit run = 0 ↔ TestLocalInference.mainResult run = true) ∧
    (∀ (fs : String → Bool) (content : String → String),
      ValidateImpl.scriptExit fs content = 0 ↔ ValidateImpl.main fs content = true) ∧
    (∀ (installOk : String → Bool) (verifyOk : Bool),
      SetupEnvScript.scriptExit installOk verifyOk = 0 ↔
        SetupEnvScript.main installOk verifyOk = true) ∧
    (∀ (env : ConvertScript.PyEnv) (c l v : Bool),
      ConvertScript.scriptExit env c l v = 0) := by
  refine ⟨?_, ?_, ?_, ?_, ?_, fun _ _ _ _ => rfl⟩
  · intro raw dlOk
    unfold DownloadWeights.scriptExit
    split <;> simp_all
  · intro e
    unfold CreateTestModel.scriptExit
    split <;> simp_all
  · intro run
    unfold TestLocalInference.scriptExit
    split <;> simp_all
  · intro fs content
    unfold ValidateImpl.scriptExit
    split <;> simp_all
  · intro installOk verifyOk
    unfold SetupEnvScript.scriptExit
    split <;> simp_all

/-- C2 (counterexample): in `test_local_inference.main` the first test
function returns failure, yet every one of the five test functions is still
invoked: a failed test does not prevent the remaining tests from running. -/
theorem test_loop_runs_after_failure :
    (TestLocalInference.mainTrace TestLocalInference.cexRun).2.head? =
      some ("Core ML Model Creation", false) ∧
    (TestLocalInference.mainTrace TestLocalInference.cexRun).1 =
      TestLocalInference.testNames ∧
    (TestLocalInference.mainTrace TestLocalInference.cexRun).1.length = 5 := by
  decide

/-- C2 (amended): in `convert_panderm_to_coreml.main` a failed environment
setup, a missing checkpoint, or a failed model load prevents every later
step from executing; in `test_local_inference.main`, however, all five test
functions are invoked regardless of earlier failures — a failure there only
shows in the summary. -/
theorem failure_aborts_remaining_steps :
    (∀ (env : ConvertScript.PyEnv) (c l v : Bool),
      (ConvertScript.setup_environment env = false →
        ConvertScript.main env c l v =
          ([ConvertScript.Step.setup], ConvertScript.Outcome.setupFailed)) ∧
      (ConvertScript.setup_environment env = true → c = false →
        ConvertScript.main env c l v =
          ([ConvertScript.Step.setup, ConvertScript.Step.checkCheckpoint],
           ConvertScript.Outcome.checkpointMissing)) ∧
      (ConvertScript.setup_environment env = true → c = true → l = false →
        ConvertScript.main env c l v =
          ([ConvertScript.Step.setup, ConvertScript.Step.checkCheckpoint,
            ConvertScript.Step.loadModel], ConvertScript.Outcome.loadFailed))) ∧
    (∀ run : String → TestLocalInference.TestOutcome,
      (TestLocalInference.mainTrace run).1 = TestLocalInference.testNames) := by
  constructor
  · intro env c l v
    refine ⟨fun h1 => ?_, fun h1 h2 => ?_, fun h1 h2 h3 => ?_⟩
    · simp [ConvertScript.main, h1]
    · simp [ConvertScript.main, h1, h2]
    · simp [ConvertScript.main, h1, h2, h3]
  · intro run
    rfl

/-- C6: `create_model_package` removes the pre-existing package at
`output_dir/<model_name>.mlpackage` (and only then saves the model to that
same path) when one exists, returns that path, and removes nothing when no
package exists there. -/
theorem create_model_package_path_and_overwrite :
    ∀ (fs : String → Bool) (model_name output_dir : String),
      (CreateTestModel.create_model_package fs model_name output_dir).1 =
        output_dir ++ "/" ++ model_name ++ ".mlpackage" ∧
      (fs (output_dir ++ "/" ++ model_name ++ ".mlpackage") = true →
        (CreateTestModel.create_model_package fs model_name output_dir).2 =
          [CreateTestModel.FsAction.rmtree
             (output_dir ++ "/" ++ model_name ++ ".mlpackage"),
           CreateTestModel.FsAction.save
             (output_dir ++ "/" ++ model_name ++ ".mlpackage")]) ∧
      (fs (output_dir ++ "/" ++ model_name ++ ".mlpackage") = false →
        (CreateTestModel.create_model_package fs model_name output_dir).2 =
          [CreateTestModel.FsAction.save
             (output_dir ++ "/" ++ model_name ++ ".mlpackage")]) := by
  intro fs model_name output_dir
  unfold CreateTestModel.create_model_package
  by_cases h : fs (output_dir ++ "/" ++ model_name ++ ".mlpackage") = true <;>
    simp_all

/-- C7: `check_file_exists` returns `True` exactly when the path exists, and
`check_swift_files` and `check_core_ml_models` return `(passed, total)`
where `total` is the length of their fixed path lists (13 and 2) and
`passed` is the number of listed paths that exist. -/
theorem existence_checks_count :
    ∀ (fs : String → Bool) (p : String),
      (ValidateImpl.check_file_exists fs p = true ↔ fs p = true) ∧
      (ValidateImpl.check_swift_files fs).2 = 13 ∧
      (ValidateImpl.check_swift_files fs).1 =
        (ValidateImpl.swift_files.filter (fun fd => fs fd.1)).length ∧
      (ValidateImpl.check_core_ml_models fs).2 = 2 ∧
      (ValidateImpl.check_core_ml_models fs).1 =
        (ValidateImpl.model_files.filter (fun fd => fs fd.1)).length := by
  intro fs p
  refine ⟨Iff.rfl, rfl, ?_, rfl, ?_⟩ <;>
    simp [ValidateImpl.check_swift_files, ValidateImpl.check_core_ml_models,
      ValidateImpl.countPassed_eq]

/-- C9: the two `validate_model` results have no effect on the value
`create_test_model.main` returns, and whenever no step of the `try` block
raises, `main` returns `True` even if validation failed. -/
theorem validate_model_result_ignored :
    ∀ (e : CreateTestModel.MainEnv) (v1 v2 : Bool),
      CreateTestModel.main { e with basicValidate := v1, enhancedValidate := v2 } =
        CreateTestModel.main e ∧
      ((e.basicCreateOk && e.basicPackageOk && e.enhancedCreateOk &&
          e.enhancedPackageOk && e.infoWriteOk) = true →
        CreateTestModel.main e = true) := by
  intro e v1 v2
  constructor
  · cases e
    rfl
  · intro h
    simp only [Bool.and_eq_true] at h
    simp [CreateTestModel.main, h.1.1.1.1, h.1.1.1.2, h.1.1.2, h.1.2, h.2]
